import Mathlib

/-!
# reverse-ssh: the session handler

A shallow embedding of `makeSSHSessionHandler` (src/ssh_session.go) and of
`createPty` (src/ssh_session_unix.go).

The handler is effectful Go code.  It is embedded as a pure function from the
session it is given and from a `World` (the answers of the library calls the
handler makes: `cmd.StdinPipe()`, `pty.Start`, `cmd.Wait()`, and the state of the
three channels of the `select`) to an `Outcome`: the list of actions the
handler's own goroutine performs, in program order, and how the invocation ends.

Go's `select` picks one of the communications that can proceed; when several
can, the choice is not determined by the program.  The `World` carries that
choice (`pick`), and `selectCase` only ever yields a case that can proceed.
-/

namespace ReverseSSH

/-! ## Data model -/

/-- Actions performed by the goroutine that runs the handler. -/
inductive Event where
  /-- `log.Printf` / `log.Println` / `log.Fatalln`: a line of the local log. -/
  | log (msg : String)
  /-- `fmt.Fprintf(s, ...)`: bytes written to the session's stream. -/
  | write (msg : String)
  /-- `s.Exit(code)`. -/
  | exit (code : Int)
  /-- `context.WithCancel(context.Background())`. -/
  | newContext
  /-- `exec.CommandContext(ctx, name, args...)`: builds the command, starts nothing. -/
  | commandContext (name : String) (args : List String)
  /-- `cmd.StdinPipe()`. -/
  | stdinPipe
  /-- `go func() { io.Copy(stdin, s); cancel() }()`. -/
  | goStdinPump
  /-- `cmd.Stdout = s; cmd.Stderr = s`. -/
  | wireOutput
  /-- `go func() { c <- cmd.Run() }()`: the only place the command is started. -/
  | goRun
  /-- `cmd.Env = append(cmd.Env, kv)`. -/
  | setEnv (kv : String)
  /-- `pty.Start(cmd)`. -/
  | ptyStart
  /-- `go func() { for win := range winCh { pty.Setsize(...) } }()`. -/
  | goResize
  /-- `go io.Copy(f, s)`. -/
  | goCopyIn
  /-- `go io.Copy(s, f)`. -/
  | goCopyOut
  /-- The deferred `cancel()`, run when the function returns. -/
  | cancel
  deriving DecidableEq, Repr

/-- How one invocation ends. -/
inductive Status where
  /-- The function returned to its caller. -/
  | returned
  /-- The function is blocked for ever (a `select` or `Wait` that never completes). -/
  | blocked
  /-- `log.Fatalln` was reached: the line is logged and `os.Exit(1)` ends the whole
  service process; deferred calls do not run and nothing returns. -/
  | fatal
  deriving DecidableEq, Repr

/-- Result of running the handler: its actions and its end. -/
structure Outcome where
  events : List Event
  status : Status
  deriving DecidableEq, Repr

/-- The part of `ssh.Session` the handler reads. -/
structure Session where
  /-- `s.User()`. -/
  user : String
  /-- `s.RemoteAddr().String()`. -/
  remoteAddr : String
  /-- Third result of `s.Pty()`. -/
  isPty : Bool
  /-- `ptyReq.Term`, from the first result of `s.Pty()`. -/
  term : String
  /-- `s.Command()`. -/
  command : List String
  /-- `s.RawCommand()`. -/
  rawCommand : String
  deriving DecidableEq, Repr

/-- What `cmd.Run()` / `cmd.Wait()` leave behind: the returned error (its text) and
`cmd.ProcessState` (`none` for nil, otherwise the value of `ExitCode()`). -/
structure RunResult where
  err : Option String
  state : Option Int
  deriving DecidableEq, Repr

/-- The three cases of the `select` of the command path. -/
inductive Arm where
  /-- `case err := <-c`. -/
  | run
  /-- `case <-ctx.Done()`. -/
  | ctx
  /-- `case <-s.Context().Done()`. -/
  | sess
  deriving DecidableEq, Repr

/-- A case of the `select` that was taken, with what it received. -/
inductive Fired where
  | run (r : RunResult)
  | ctx
  | sess (reason : String)
  deriving DecidableEq, Repr

/-- Answers of the environment during one invocation.  The three channel fields
describe the moment the `select` is resolved (`none`: cannot proceed; all three
`none`: no case ever becomes ready). -/
structure World where
  /-- Error of `cmd.StdinPipe()`, `none` when the pipe was obtained. -/
  stdinPipe : Option String
  /-- The input pump: `none` while `io.Copy(stdin, s)` is still running,
  `some none` when it returned at EOF, `some (some e)` when it returned error `e`. -/
  pump : Option (Option String)
  /-- Value sent on `c` by `cmd.Run()`, `none` while `Run` has not returned. -/
  run : Option RunResult
  /-- Text of `s.Context().Err()` once `s.Context().Done()` is closed, `none` before
  (in the route with neither pty nor command, whose `select` has this single case:
  `none` when the session's context is never cancelled). -/
  sess : Option String
  /-- Which ready case the `select` takes when several are ready. -/
  pick : Arm
  /-- Error of `pty.Start(cmd)`, `none` when the shell was started. -/
  ptyStart : Option String
  /-- Result of `cmd.Wait()` in `createPty`, `none` when the shell never ends. -/
  wait : Option RunResult
  deriving DecidableEq, Repr

/-! ## Library behaviour the handler relies on -/

/-- How a process started by `os/exec` ends. -/
inductive ProcEnd where
  /-- The program could not be started. -/
  | startFailed (err : String)
  /-- The process ran and exited by itself with this exit status. -/
  | exited (code : Nat)
  /-- The process was ended by a signal. -/
  | signaled (sig : String)
  deriving DecidableEq, Repr

/-- The documented contract of `(*exec.Cmd).Run` and `(*exec.Cmd).Wait` (Go standard
library, package os/exec): the returned error is nil only if the command ran and
exited with a zero exit status; if the command starts but does not complete
successfully the error is an `*exec.ExitError`, whose text is that of the process
state (`exit status N`, `signal: ...`); `ProcessState.ExitCode()` is the exit
status, or -1 for a process ended by a signal; `ProcessState` stays nil when the
process was never started. -/
def cmdRun : ProcEnd → RunResult
  | .startFailed e => ⟨some e, none⟩
  | .exited 0 => ⟨none, some 0⟩
  | .exited (n + 1) => ⟨some ("exit status " ++ toString (n + 1)), some (Int.ofNat (n + 1))⟩
  | .signaled sig => ⟨some ("signal: " ++ sig), some (-1)⟩

/-- Text of `ctx.Err()` after `<-ctx.Done()` for a context made by
`context.WithCancel(context.Background())`: always `context.Canceled`. -/
def contextCanceled : String := "context canceled"

/-- Whether a case of the `select` can proceed, and with which value.  `ctx.Done()` is
closed exactly when the input pump has called `cancel()` (the deferred `cancel()`
runs only after the `select`). -/
def ready (w : World) : Arm → Option Fired
  | .run => w.run.map Fired.run
  | .ctx => if w.pump.isSome then some Fired.ctx else none
  | .sess => w.sess.map Fired.sess

/-- Go's `select`: one of the cases that can proceed is taken (the one named by
`w.pick` when it can proceed); with no ready case the `select` blocks. -/
def selectCase (w : World) : Option Fired :=
  match ready w w.pick with
  | some f => some f
  | none =>
    match ready w .run with
    | some f => some f
    | none =>
      match ready w .ctx with
      | some f => some f
      | none => ready w .sess

/-! ## The handler -/

/-- The closure `logError`: `log.Printf(f, v...)` then `fmt.Fprintf(s, f, v...)`. -/
def logError (msg : String) : List Event :=
  [.log msg, .write msg]

/-- Embedding of `createPty` (src/ssh_session_unix.go). -/
def createPty (s : Session) (shell : String) (w : World) : Outcome :=
  let setup : List Event :=
    [.newContext, .commandContext shell [], .setEnv ("TERM=" ++ s.term), .ptyStart]
  match w.ptyStart with
  | some err => ⟨setup ++ [.log ("Could not start shell: " ++ err)], .fatal⟩
  | none =>
    let started := setup ++ [.goResize, .goCopyIn, .goCopyOut]
    match w.wait with
    | none => ⟨started, .blocked⟩
    | some r =>
      match r.err with
      | some err =>
        ⟨started ++ [.log ("Session ended with error: " ++ err), .exit 255, .cancel], .returned⟩
      | none =>
        match r.state with
        | some code => ⟨started ++ [.exit code, .cancel], .returned⟩
        | none =>
          ⟨started ++ [.log "Unknown error happenend. Bug?\n",
              .log "You may report it: https://github.com/Fahrj/reverse-ssh/issues\n",
              .cancel], .returned⟩

/-- Embedding of the function returned by `makeSSHSessionHandler shell`
(src/ssh_session.go). -/
def makeSSHSessionHandler (shell : String) (s : Session) (w : World) : Outcome :=
  let login : Event := .log ("New login from " ++ s.user ++ "@" ++ s.remoteAddr)
  if s.isPty then
    let r := createPty s shell w
    ⟨login :: .log "PTY requested" :: r.events, r.status⟩
  else
    match s.command with
    | name :: args =>
      let setup : List Event :=
        [login,
         .log ("No PTY requested, executing command: \x27" ++ s.rawCommand ++ "\x27"),
         .newContext, .commandContext name args, .stdinPipe]
      match w.stdinPipe with
      | some err =>
        ⟨setup ++ [.log ("Could not initialize StdinPipe " ++ err), .exit 1, .cancel], .returned⟩
      | none =>
        let started := setup ++ [.goStdinPump, .wireOutput, .goRun]
        match selectCase w with
        | none => ⟨started, .blocked⟩
        | some (.run r) =>
          match r.err with
          | some err =>
            ⟨started ++ logError ("Command execution failed: " ++ err ++ "\n")
              ++ [.exit 255, .cancel], .returned⟩
          | none =>
            match r.state with
            | some code => ⟨started ++ [.exit code, .cancel], .returned⟩
            | none =>
              ⟨started ++ logError "Unknown error happenend. Bug?\n"
                ++ logError "You may report it: https://github.com/Fahrj/reverse-ssh/issues\n"
                ++ [.cancel], .returned⟩
        | some .ctx =>
          ⟨started ++ logError ("Command execution failed: " ++ contextCanceled ++ "\n")
            ++ [.exit 254, .cancel], .returned⟩
        | some (.sess reason) =>
          ⟨started ++ logError ("Connection terminated unexpectedly: " ++ reason ++ "\n")
            ++ [.cancel], .returned⟩
    | [] =>
      let setup : List Event := [login, .log "No PTY requested, no command supplied"]
      match w.sess with
      | some _ => ⟨setup ++ [.log "Session closed"], .returned⟩
      | none => ⟨setup, .blocked⟩

/-! ## Observations on an outcome -/

/-- The codes given to `s.Exit`, in order. -/
def exitCalls : List Event → List Int
  | [] => []
  | .exit c :: es => c :: exitCalls es
  | _ :: es => exitCalls es

/-- The texts written to the session's stream by the handler, in order. -/
def writes : List Event → List String
  | [] => []
  | .write m :: es => m :: writes es
  | _ :: es => writes es

/-- Whether the command is started (`cmd.Run()` is called). -/
def runsCommand (es : List Event) : Bool := es.contains .goRun

/-- Whether a goroutine is started by the handler. -/
def startsGoroutine (es : List Event) : Bool :=
  es.any fun e => e == .goStdinPump || e == .goRun || e == .goResize
    || e == .goCopyIn || e == .goCopyOut

/-- The commands built with `exec.CommandContext`: program and arguments, in order. -/
def commandsBuilt : List Event → List (String × List String)
  | [] => []
  | .commandContext name args :: es => (name, args) :: commandsBuilt es
  | _ :: es => commandsBuilt es

/-! ## Concrete sessions and worlds -/

/-- A world in which nothing has happened yet: pipe obtained, no channel ready. -/
def idleWorld : World :=
  { stdinPipe := none, pump := none, run := none, sess := none, pick := .run,
    ptyStart := none, wait := none }

/-- The session of `ssh user@host false`. -/
def falseSession : Session :=
  { user := "root", remoteAddr := "10.0.0.5:40022", isPty := false, term := "",
    command := ["false"], rawCommand := "false" }

/-- The command `false` ran and exited by itself with status 1; only `c` is ready. -/
def falseWorld : World :=
  { idleWorld with run := some (cmdRun (.exited 1)) }

/-- The session of `ssh user@host sleep 100`. -/
def sleepSession : Session :=
  { user := "root", remoteAddr := "10.0.0.5:40022", isPty := false, term := "",
    command := ["sleep", "100"], rawCommand := "sleep 100" }

/-- Only the session's context was cancelled. -/
def teardownWorld : World :=
  { idleWorld with sess := some "context canceled", pick := .sess }

/-- The session of `ssh user@host /does/not/exist`. -/
def missingSession : Session :=
  { user := "root", remoteAddr := "10.0.0.5:40022", isPty := false, term := "",
    command := ["/does/not/exist"], rawCommand := "/does/not/exist" }

/-- The program could not be started. -/
def missingWorld : World :=
  { idleWorld with
    run := some (cmdRun (.startFailed "fork/exec /does/not/exist: no such file or directory")) }

/-- The stdin pipe could not be obtained. -/
def noPipeWorld : World :=
  { idleWorld with stdinPipe := some "pipe: too many open files" }

/-- An interactive session (`ssh -t user@host`), with a command line as well. -/
def ptySession : Session :=
  { user := "root", remoteAddr := "10.0.0.5:40022", isPty := true, term := "xterm",
    command := ["id"], rawCommand := "id" }

/-- A session with neither pty nor command (`ssh -N user@host`). -/
def bareSession : Session :=
  { user := "root", remoteAddr := "10.0.0.5:40022", isPty := false, term := "",
    command := [], rawCommand := "" }

/-- The shell could not be started under the pty. -/
def noShellWorld : World :=
  { idleWorld with ptyStart := some "fork/exec /bin/nosuchshell: no such file or directory" }

/-- The shell was started and the user left it with `exit 3`. -/
def exit3World : World :=
  { idleWorld with wait := some (cmdRun (.exited 3)) }

/-! ## General facts about the model -/

theorem exitCalls_append (xs ys : List Event) :
    exitCalls (xs ++ ys) = exitCalls xs ++ exitCalls ys := by
  induction xs with
  | nil => rfl
  | cons x xs ih => cases x <;> simp [exitCalls, ih]

theorem writes_append (xs ys : List Event) :
    writes (xs ++ ys) = writes xs ++ writes ys := by
  induction xs with
  | nil => rfl
  | cons x xs ih => cases x <;> simp [writes, ih]

/-- Every case that can proceed is taken under some choice of the scheduler. -/
theorem selectCase_complete (w : World) (a : Arm) (f : Fired) (h : ready w a = some f) :
    selectCase { w with pick := a } = some f := by
  have h2 : ready { w with pick := a } a = some f := by
    cases a <;> simpa [ready] using h
  simp [selectCase, h2]

/-- What the command path does once the `select` has taken a case. -/
theorem command_path_events (shell : String) (s : Session) (w : World)
    (name : String) (args : List String) (f : Fired)
    (hpty : s.isPty = false) (hcmd : s.command = name :: args)
    (hpipe : w.stdinPipe = none) (hsel : selectCase w = some f) :
    (makeSSHSessionHandler shell s w).status = Status.returned ∧
    exitCalls (makeSSHSessionHandler shell s w).events =
      (match f with
       | .run r =>
         match r.err with
         | some _ => [255]
         | none => match r.state with
           | some code => [code]
           | none => []
       | .ctx => [254]
       | .sess _ => []) := by
  cases f with
  | run r =>
    rcases r with ⟨err, st⟩
    cases err <;> cases st <;>
      simp [makeSSHSessionHandler, hpty, hcmd, hpipe, hsel, logError, exitCalls]
  | ctx => simp [makeSSHSessionHandler, hpty, hcmd, hpipe, hsel, logError, exitCalls]
  | sess reason => simp [makeSSHSessionHandler, hpty, hcmd, hpipe, hsel, logError, exitCalls]

/-- A command that exits by itself with a nonzero status is reported with 255 when the
process-completion case is taken. -/
theorem command_nonzero_exit_reports_255 (shell : String) (s : Session) (w : World)
    (name : String) (args : List String) (n : Nat)
    (hpty : s.isPty = false) (hcmd : s.command = name :: args)
    (hpipe : w.stdinPipe = none)
    (hsel : selectCase w = some (.run (cmdRun (.exited (n + 1))))) :
    exitCalls (makeSSHSessionHandler shell s w).events = [255] := by
  have h := (command_path_events shell s w name args _ hpty hcmd hpipe hsel).2
  simpa [cmdRun] using h

/-- A command that exits by itself with status 0 is reported with 0 when the
process-completion case is taken. -/
theorem command_zero_exit_reports_0 (shell : String) (s : Session) (w : World)
    (name : String) (args : List String)
    (hpty : s.isPty = false) (hcmd : s.command = name :: args)
    (hpipe : w.stdinPipe = none)
    (hsel : selectCase w = some (.run (cmdRun (.exited 0)))) :
    exitCalls (makeSSHSessionHandler shell s w).events = [0] := by
  have h := (command_path_events shell s w name args _ hpty hcmd hpipe hsel).2
  simpa [cmdRun] using h

/-- What `createPty` reports once the shell was started and `Wait` has returned. -/
theorem createPty_exit_calls (s : Session) (shell : String) (w : World) (r : RunResult)
    (hstart : w.ptyStart = none) (hwait : w.wait = some r) :
    (createPty s shell w).status = Status.returned ∧
    exitCalls (createPty s shell w).events =
      (match r.err with
       | some _ => [255]
       | none => match r.state with
         | some code => [code]
         | none => []) := by
  rcases r with ⟨err, st⟩
  cases err <;> cases st <;> simp [createPty, hstart, hwait, exitCalls]

/-- A shell that exits by itself with a nonzero status is reported with 255. -/
theorem createPty_nonzero_exit_reports_255 (s : Session) (shell : String) (w : World)
    (n : Nat) (hstart : w.ptyStart = none) (hwait : w.wait = some (cmdRun (.exited (n + 1)))) :
    exitCalls (createPty s shell w).events = [255] := by
  have h := (createPty_exit_calls s shell w _ hstart hwait).2
  simpa [cmdRun] using h

/-! ## The claims -/

/-- C1, the code at `argv = ["false"]`: the process exits by itself with status 1, so
`cmd.Run()` returns the error `exit status 1` with the process state populated; the
process-completion case is the only ready one, the handler takes its error branch,
writes the failure text and calls `Exit` with 255, not with 1. -/
theorem C1_false_exit_reported_as_255 :
    cmdRun (.exited 1) = ⟨some "exit status 1", some 1⟩ ∧
    falseWorld.stdinPipe = none ∧
    selectCase falseWorld = some (.run (cmdRun (.exited 1))) ∧
    writes (makeSSHSessionHandler "/bin/bash" falseSession falseWorld).events
      = ["Command execution failed: exit status 1\n"] ∧
    exitCalls (makeSSHSessionHandler "/bin/bash" falseSession falseWorld).events = [255] := by
  decide

/-- C3: in a command session in which the process-completion case is taken and `Run`
returned the error `err`, the handler writes `Command execution failed: <err>\n` to the
session, then calls `Exit` with 255, then returns (only the deferred `cancel()` follows);
that is its only write and its only `Exit`. -/
theorem C3_run_error_reported (shell : String) (s : Session) (w : World)
    (name : String) (args : List String) (r : RunResult) (err : String)
    (hpty : s.isPty = false) (hcmd : s.command = name :: args)
    (hpipe : w.stdinPipe = none)
    (hsel : selectCase w = some (.run r)) (herr : r.err = some err) :
    (makeSSHSessionHandler shell s w).status = Status.returned ∧
    (∃ before, (makeSSHSessionHandler shell s w).events =
        before ++ [.write ("Command execution failed: " ++ err ++ "\n"), .exit 255, .cancel] ∧
        writes before = [] ∧ exitCalls before = []) ∧
    writes (makeSSHSessionHandler shell s w).events
      = ["Command execution failed: " ++ err ++ "\n"] ∧
    exitCalls (makeSSHSessionHandler shell s w).events = [255] := by
  rcases r with ⟨e, st⟩
  simp only at herr
  subst herr
  refine ⟨?_, ⟨[.log ("New login from " ++ s.user ++ "@" ++ s.remoteAddr),
      .log ("No PTY requested, executing command: \x27" ++ s.rawCommand ++ "\x27"),
      .newContext, .commandContext name args, .stdinPipe, .goStdinPump, .wireOutput, .goRun,
      .log ("Command execution failed: " ++ err ++ "\n")], ?_, ?_, ?_⟩, ?_, ?_⟩ <;>
    simp [makeSSHSessionHandler, hpty, hcmd, hpipe, hsel, logError, exitCalls, writes]

/-- C3 at `argv = ["/does/not/exist"]`: the failure text is on the session's stream and
`Exit` is called with 255. -/
theorem C3_run_error_reported_witness :
    writes (makeSSHSessionHandler "/bin/bash" missingSession missingWorld).events
      = ["Command execution failed: " ++
          "fork/exec /does/not/exist: no such file or directory" ++ "\n"] ∧
    exitCalls (makeSSHSessionHandler "/bin/bash" missingSession missingWorld).events = [255] :=
  (C3_run_error_reported "/bin/bash" missingSession missingWorld "/does/not/exist" []
    (cmdRun (.startFailed "fork/exec /does/not/exist: no such file or directory"))
    "fork/exec /does/not/exist: no such file or directory"
    (by decide) (by decide) (by decide) (by decide) (by decide)).2.2

/-- C4: in a command session whose stdin pipe cannot be obtained, the handler logs,
calls `Exit` with 1 and returns at once: `Run` is not called, no goroutine is started
and nothing is written to the session's stream. -/
theorem C4_stdin_pipe_failure (shell : String) (s : Session) (w : World)
    (name : String) (args : List String) (err : String)
    (hpty : s.isPty = false) (hcmd : s.command = name :: args)
    (hpipe : w.stdinPipe = some err) :
    (makeSSHSessionHandler shell s w).status = Status.returned ∧
    (makeSSHSessionHandler shell s w).events =
      [.log ("New login from " ++ s.user ++ "@" ++ s.remoteAddr),
       .log ("No PTY requested, executing command: \x27" ++ s.rawCommand ++ "\x27"),
       .newContext, .commandContext name args, .stdinPipe,
       .log ("Could not initialize StdinPipe " ++ err), .exit 1, .cancel] ∧
    exitCalls (makeSSHSessionHandler shell s w).events = [1] ∧
    runsCommand (makeSSHSessionHandler shell s w).events = false ∧
    startsGoroutine (makeSSHSessionHandler shell s w).events = false ∧
    writes (makeSSHSessionHandler shell s w).events = [] := by
  refine ⟨?_, ?_, ?_, ?_, ?_, ?_⟩ <;>
    simp [makeSSHSessionHandler, hpty, hcmd, hpipe, exitCalls, writes, runsCommand,
      startsGoroutine]

/-- C4 at a concrete session whose pipe cannot be obtained. -/
theorem C4_stdin_pipe_failure_witness :
    exitCalls (makeSSHSessionHandler "/bin/bash" missingSession noPipeWorld).events = [1] ∧
    runsCommand (makeSSHSessionHandler "/bin/bash" missingSession noPipeWorld).events = false :=
  have h := C4_stdin_pipe_failure "/bin/bash" missingSession noPipeWorld "/does/not/exist" []
    "pipe: too many open files" (by decide) (by decide) (by decide)
  ⟨h.2.2.1, h.2.2.2.1⟩

/-- C6: the handler takes one of three routes, chosen by the pty flag and the argv alone.
With a pty requested it logs and does what `createPty s shell` does, whatever the argv:
the only command built is the shell, and `cmd.Run()` is never called.  Without a pty and
with argv `name :: args` the only command built is `name` with arguments `args`, no pty
is started, and `Run` is called once the stdin pipe is obtained.  With neither, nothing
is built or started, the handler returns exactly when the session's context is
cancelled (it blocks otherwise) and never calls `Exit`. -/
theorem C6_three_routes (shell : String) (s : Session) (w : World) :
    (s.isPty = true →
      makeSSHSessionHandler shell s w =
        ⟨.log ("New login from " ++ s.user ++ "@" ++ s.remoteAddr) :: .log "PTY requested"
          :: (createPty s shell w).events, (createPty s shell w).status⟩ ∧
      commandsBuilt (makeSSHSessionHandler shell s w).events = [(shell, [])] ∧
      runsCommand (makeSSHSessionHandler shell s w).events = false) ∧
    (∀ name args, s.isPty = false → s.command = name :: args →
      commandsBuilt (makeSSHSessionHandler shell s w).events = [(name, args)] ∧
      Event.ptyStart ∉ (makeSSHSessionHandler shell s w).events ∧
      (w.stdinPipe = none → runsCommand (makeSSHSessionHandler shell s w).events = true)) ∧
    (s.isPty = false → s.command = [] →
      (makeSSHSessionHandler shell s w).events =
        .log ("New login from " ++ s.user ++ "@" ++ s.remoteAddr)
          :: .log "No PTY requested, no command supplied"
          :: (if w.sess.isSome then [.log "Session closed"] else []) ∧
      ((makeSSHSessionHandler shell s w).status = Status.returned ↔ w.sess.isSome = true) ∧
      ((makeSSHSessionHandler shell s w).status = Status.blocked ↔ w.sess = none) ∧
      exitCalls (makeSSHSessionHandler shell s w).events = [] ∧
      commandsBuilt (makeSSHSessionHandler shell s w).events = [] ∧
      startsGoroutine (makeSSHSessionHandler shell s w).events = false ∧
      Event.ptyStart ∉ (makeSSHSessionHandler shell s w).events) := by
  refine ⟨?_, ?_, ?_⟩
  · intro hpty
    refine ⟨by simp [makeSSHSessionHandler, hpty], ?_, ?_⟩
    · cases hs : w.ptyStart with
      | some e => simp [makeSSHSessionHandler, hpty, createPty, hs, commandsBuilt]
      | none =>
        cases hw : w.wait with
        | none => simp [makeSSHSessionHandler, hpty, createPty, hs, hw, commandsBuilt]
        | some r =>
          rcases r with ⟨e, st⟩
          cases e <;> cases st <;>
            simp [makeSSHSessionHandler, hpty, createPty, hs, hw, commandsBuilt]
    · cases hs : w.ptyStart with
      | some e => simp [makeSSHSessionHandler, hpty, createPty, hs, runsCommand]
      | none =>
        cases hw : w.wait with
        | none => simp [makeSSHSessionHandler, hpty, createPty, hs, hw, runsCommand]
        | some r =>
          rcases r with ⟨e, st⟩
          cases e <;> cases st <;>
            simp [makeSSHSessionHandler, hpty, createPty, hs, hw, runsCommand]
  · intro name args hpty hcmd
    cases hp : w.stdinPipe with
    | some e =>
      simp [makeSSHSessionHandler, hpty, hcmd, hp, commandsBuilt]
    | none =>
      cases hsel : selectCase w with
      | none => simp [makeSSHSessionHandler, hpty, hcmd, hp, hsel, commandsBuilt, runsCommand]
      | some f =>
        cases f with
        | run r =>
          rcases r with ⟨e, st⟩
          cases e <;> cases st <;>
            simp [makeSSHSessionHandler, hpty, hcmd, hp, hsel, commandsBuilt, runsCommand,
              logError]
        | ctx =>
          simp [makeSSHSessionHandler, hpty, hcmd, hp, hsel, commandsBuilt, runsCommand,
            logError]
        | sess reason =>
          simp [makeSSHSessionHandler, hpty, hcmd, hp, hsel, commandsBuilt, runsCommand,
            logError]
  · intro hpty hcmd
    cases hs : w.sess <;>
      simp [makeSSHSessionHandler, hpty, hcmd, hs, exitCalls, commandsBuilt, startsGoroutine]

/-- C6 at three concrete sessions: a pty session that also carries a command line, the
session of `sleep 100`, and a session with neither pty nor command. -/
theorem C6_three_routes_witness :
    commandsBuilt (makeSSHSessionHandler "/bin/bash" ptySession idleWorld).events
      = [("/bin/bash", [])] ∧
    commandsBuilt (makeSSHSessionHandler "/bin/bash" sleepSession idleWorld).events
      = [("sleep", ["100"])] ∧
    exitCalls (makeSSHSessionHandler "/bin/bash" bareSession teardownWorld).events = [] :=
  ⟨((C6_three_routes "/bin/bash" ptySession idleWorld).1 (by decide)).2.1,
   ((C6_three_routes "/bin/bash" sleepSession idleWorld).2.1 "sleep" ["100"]
      (by decide) (by decide)).1,
   ((C6_three_routes "/bin/bash" bareSession teardownWorld).2.2
      (by decide) (by decide)).2.2.2.1⟩

/-- C7: in every invocation of the handler, whatever the route and whatever the
environment answers, `Exit` is called at most once; the same holds of `createPty`. -/
theorem C7_exit_at_most_once (shell : String) (s : Session) (w : World) :
    (exitCalls (makeSSHSessionHandler shell s w).events).length ≤ 1 ∧
    (exitCalls (createPty s shell w).events).length ≤ 1 := by
  have hpty : (exitCalls (createPty s shell w).events).length ≤ 1 := by
    cases hs : w.ptyStart with
    | some e => simp [createPty, hs, exitCalls]
    | none =>
      cases hw : w.wait with
      | none => simp [createPty, hs, hw, exitCalls]
      | some r =>
        have h := (createPty_exit_calls s shell w r hs hw).2
        rw [h]
        rcases r with ⟨e, st⟩
        cases e <;> cases st <;> simp
  refine ⟨?_, hpty⟩
  cases hp : s.isPty with
  | true => simpa [makeSSHSessionHandler, hp, exitCalls] using hpty
  | false =>
    cases hc : s.command with
    | nil => cases hs : w.sess <;> simp [makeSSHSessionHandler, hp, hc, hs, exitCalls]
    | cons name args =>
      cases hpipe : w.stdinPipe with
      | some e => simp [makeSSHSessionHandler, hp, hc, hpipe, exitCalls]
      | none =>
        cases hsel : selectCase w with
        | none => simp [makeSSHSessionHandler, hp, hc, hpipe, hsel, exitCalls]
        | some f =>
          have h := (command_path_events shell s w name args f hp hc hpipe hsel).2
          rw [h]
          cases f with
          | run r =>
            rcases r with ⟨e, st⟩
            cases e <;> cases st <;> simp
          | ctx => simp
          | sess reason => simp

/-- C8 fails as stated: when the shell cannot be started, `createPty` does not return
to its caller; `log.Fatalln` ends the service process. -/
theorem C8_start_failure_does_not_return :
    ptySession.isPty = true ∧ noShellWorld.ptyStart.isSome = true ∧
    (createPty ptySession "/bin/nosuchshell" noShellWorld).status = Status.fatal ∧
    (createPty ptySession "/bin/nosuchshell" noShellWorld).status ≠ Status.returned ∧
    (makeSSHSessionHandler "/bin/nosuchshell" ptySession noShellWorld).status
      ≠ Status.returned := by
  decide

/-- C8 as amended: when starting the shell under the pty fails with `err`, `createPty`
logs `Could not start shell: <err>` and ends the service process (`log.Fatalln`) without
returning; before that it has started neither byte pump nor the resize consumer and has
not called `Exit`.  The handler that called it ends the same way. -/
theorem C8_start_failure_is_fatal (s : Session) (shell : String) (w : World) (err : String)
    (hstart : w.ptyStart = some err) :
    (createPty s shell w).status = Status.fatal ∧
    (createPty s shell w).events =
      [.newContext, .commandContext shell [], .setEnv ("TERM=" ++ s.term), .ptyStart,
       .log ("Could not start shell: " ++ err)] ∧
    startsGoroutine (createPty s shell w).events = false ∧
    exitCalls (createPty s shell w).events = [] ∧
    (s.isPty = true → (makeSSHSessionHandler shell s w).status = Status.fatal) := by
  refine ⟨?_, ?_, ?_, ?_, ?_⟩
  · simp [createPty, hstart]
  · simp [createPty, hstart]
  · simp [createPty, hstart, startsGoroutine]
  · simp [createPty, hstart, exitCalls]
  · intro hpty
    simp [makeSSHSessionHandler, hpty, createPty, hstart]

/-- C8 as amended, at a shell path that does not exist. -/
theorem C8_start_failure_is_fatal_witness :
    (createPty ptySession "/bin/nosuchshell" noShellWorld).status = Status.fatal ∧
    exitCalls (createPty ptySession "/bin/nosuchshell" noShellWorld).events = [] :=
  have h := C8_start_failure_is_fatal ptySession "/bin/nosuchshell" noShellWorld
    "fork/exec /bin/nosuchshell: no such file or directory" (by decide)
  ⟨h.1, h.2.2.2.1⟩

/-- C9, the code at a shell left with `exit 3`: the shell was started and exits by itself
with status 3, so `cmd.Wait()` returns the error `exit status 3` with the process state
populated; `createPty` takes its error branch and calls `Exit` with 255, not with 3. -/
theorem C9_shell_exit_3_reported_as_255 :
    exit3World.ptyStart = none ∧
    exit3World.wait = some ⟨some "exit status 3", some 3⟩ ∧
    exit3World.wait = some (cmdRun (.exited 3)) ∧
    (createPty ptySession "/bin/bash" exit3World).status = Status.returned ∧
    exitCalls (createPty ptySession "/bin/bash" exit3World).events = [255] := by
  decide

/-- C10 fails as stated: when the session case of the `select` is taken, the handler
does write to the session's stream: `logError` logs and also prints the text to the
session. -/
theorem C10_session_case_writes_to_session :
    sleepSession.isPty = false ∧ sleepSession.command = ["sleep", "100"] ∧
    teardownWorld.stdinPipe = none ∧
    selectCase teardownWorld = some (.sess "context canceled") ∧
    writes (makeSSHSessionHandler "/bin/bash" sleepSession teardownWorld).events
      = ["Connection terminated unexpectedly: context canceled\n"] ∧
    writes (makeSSHSessionHandler "/bin/bash" sleepSession teardownWorld).events ≠ [] := by
  decide

/-- C10 as amended: when the session case of the `select` is taken in a command session,
the handler logs `Connection terminated unexpectedly: <reason>\n`, writes the same text
to the session's stream, does not call `Exit`, and returns. -/
theorem C10_session_case (shell : String) (s : Session) (w : World)
    (name : String) (args : List String) (reason : String)
    (hpty : s.isPty = false) (hcmd : s.command = name :: args)
    (hpipe : w.stdinPipe = none) (hsel : selectCase w = some (.sess reason)) :
    (makeSSHSessionHandler shell s w).status = Status.returned ∧
    (∃ before, (makeSSHSessionHandler shell s w).events =
        before ++ [.log ("Connection terminated unexpectedly: " ++ reason ++ "\n"),
          .write ("Connection terminated unexpectedly: " ++ reason ++ "\n"), .cancel] ∧
        writes before = [] ∧ exitCalls before = []) ∧
    writes (makeSSHSessionHandler shell s w).events
      = ["Connection terminated unexpectedly: " ++ reason ++ "\n"] ∧
    exitCalls (makeSSHSessionHandler shell s w).events = [] := by
  refine ⟨?_, ⟨[.log ("New login from " ++ s.user ++ "@" ++ s.remoteAddr),
      .log ("No PTY requested, executing command: \x27" ++ s.rawCommand ++ "\x27"),
      .newContext, .commandContext name args, .stdinPipe, .goStdinPump, .wireOutput, .goRun],
      ?_, ?_, ?_⟩, ?_, ?_⟩ <;>
    simp [makeSSHSessionHandler, hpty, hcmd, hpipe, hsel, logError, exitCalls, writes]

/-- C10 as amended, at `sleep 100` with the session's context cancelled. -/
theorem C10_session_case_witness :
    (makeSSHSessionHandler "/bin/bash" sleepSession teardownWorld).status = Status.returned ∧
    exitCalls (makeSSHSessionHandler "/bin/bash" sleepSession teardownWorld).events = [] :=
  have h := C10_session_case "/bin/bash" sleepSession teardownWorld "sleep" ["100"]
    "context canceled" (by decide) (by decide) (by decide) (by decide)
  ⟨h.1, h.2.2.2⟩

end ReverseSSH
